import Mathlib

/-!
Shallow embedding of the `status_list` plugin (v1_0) and proofs about the
claims on its index-allocation and publication engine.

The embedding follows the Python sources:
  - `models.py`: record types `StatusListDefinition`, `StatusList`,
    `StatusListEntry` and their tag names;
  - `controllers/status_list_entry.py`: `create_status_list_entry` (the
    allocator) and `recycle_status_list_entry`;
  - `controllers/status_list.py`: the slot-creation loop of
    `create_status_list`;
  - `controllers/status_list_publisher.py`: the bit packing, encoding and
    envelope dispatch of `publish_status_list`;
  - `controllers/status_list_definition.py`: `create_status_list_def`.

External collaborators are modelled as follows.  The transactional record
store is a list of records per type; `retrieve_by_tag_filter` succeeds on
exactly one tag match and fails otherwise (store contract of the spec).
Record ids, which are UUIDs in Python, are modelled as deterministic fresh
names of the shape "sl" ++ sequence; only the id's dash-separated suffix is
ever inspected by the code.  `random.shuffle` is modelled by an arbitrary
`shuffle` function parameter; theorems that depend on it assume the result
is a permutation of its input.  Python's `sorted` is a stable sort and is
modelled by a stable insertion sort.  `gzip.compress` and `bytes_to_b64`
are modelled by function parameters.
-/

deriving instance DecidableEq for Except

namespace StatusListPlugin

/-- Error outcomes of the Python handlers: storage lookup failures
(`StorageNotFoundError`, duplicate matches), `ValueError` raised by the
create handlers, marshmallow `ValidationError`, and Python's
`UnboundLocalError` (a local variable referenced before assignment). -/
inductive PyError where
  | storageNotFound
  | storageDuplicate
  | valueError
  | validationError
  | unboundLocal
  deriving DecidableEq

/-- `StatusListDefinition` record as read by the allocator: `status_size`
(bits per entry), `list_size` (capacity in bits), `list_cursor` (sequence
of the status list currently accepting allocations, nullable). -/
structure Defn where
  id : String
  status_size : Nat
  list_size : Nat
  list_cursor : Option Nat
  deriving DecidableEq

/-- `StatusList` record: one physical list instance.  `sequence` is stored
as a string (`str(definition.list_cursor)` in the source). -/
structure SList where
  id : String
  definition_id : String
  sequence : String
  list_size : Nat
  entry_size : Nat
  entry_cursor : Nat
  deriving DecidableEq

/-- `StatusListEntry` record: id is "{status_list_id}-{list_index}",
`sequence` is the allocation rank as a string (`str(sequence)` from
`enumerate` in the source). -/
structure Entry where
  id : String
  status_list_id : String
  sequence : String
  status : Nat
  is_assigned : Bool
  deriving DecidableEq

/-- The substring of `s` after the last dash: Python
`self.id[self.id.rindex("-") + 1 :]` (property `StatusListEntry.index`).
Record ids produced by the code always contain a dash. -/
def idSuffix (s : String) : String :=
  ⟨(s.data.reverse.takeWhile (fun c => c != '-')).reverse⟩

/-- The `index` property of a status list entry. -/
def Entry.index (e : Entry) : String := idSuffix e.id

/-- Tags exposed by a `StatusListEntry` record:
`TAG_NAMES = {"status_list_id", "sequence"}` in models.py.  Note that
`index` is a plain property, not a tag. -/
def entryTags (e : Entry) : List (String × String) :=
  [("status_list_id", e.status_list_id), ("sequence", e.sequence)]

/-- Tags exposed by a `StatusList` record:
`TAG_NAMES = {"definition_id", "sequence"}` in models.py. -/
def listTags (l : SList) : List (String × String) :=
  [("definition_id", l.definition_id), ("sequence", l.sequence)]

/-- Modelled from the spec: the store contract `retrieve_by_tag_filter`
returns the unique record whose tags contain every filter pair, fails with
NotFound on zero matches and with a duplicate error on more than one. -/
def retrieveByTags {α : Type} (tags : α → List (String × String))
    (records : List α) (f : List (String × String)) : Except PyError α :=
  match records.filter (fun r => f.all (fun kv => (tags r).contains kv)) with
  | [r] => .ok r
  | [] => .error .storageNotFound
  | _ => .error .storageDuplicate

/-- Python `range(0, stop, step)` for a positive step: the multiples of
`step` below `stop`. -/
def pyRange (stop step : Nat) : List Nat :=
  (List.range ((stop + step - 1) / step)).map (· * step)

/-- The slot-creation loop shared by `create_status_list_entry`
(status_list_entry.py lines 131-139) and `create_status_list`
(status_list.py lines 100-109): for each enumerate position `sequence`
and shuffled value `list_index`, create an entry with id
"{lid}-{list_index}", sequence `str(sequence)`, the given status, and
`is_assigned = False`. -/
def newEntriesWith (lid : String) (status : Nat) (entry_list : List Nat) :
    List Entry :=
  entry_list.enum.map fun p =>
    { id := lid ++ "-" ++ toString p.2
      status_list_id := lid
      sequence := toString p.1
      status := status
      is_assigned := false }

/-- Entry creation as performed by `create_status_list_entry`
(status := 0, the constructor default). -/
def newEntriesFor (lid : String) (entry_list : List Nat) : List Entry :=
  newEntriesWith lid 0 entry_list

/-- The store state for one definition: the definition record, its status
lists, and their entries. -/
structure Store where
  defn : Defn
  lists : List SList
  entries : List Entry
  deriving DecidableEq

/-- Rollover branch of `create_status_list_entry` (lines 109-139): bump the
definition's list cursor (0 when previously null), create a status list
with that sequence copying size and entry width from the definition, and
create its entries from a shuffle of the valid bit indices. -/
def createNewList (shuffle : List Nat → List Nat) (st : Store) :
    Store × SList :=
  let d := st.defn
  let newCursor := match d.list_cursor with
    | none => 0
    | some c => c + 1
  let lid := "sl" ++ toString newCursor
  let newList : SList :=
    { id := lid
      definition_id := d.id
      sequence := toString newCursor
      list_size := d.list_size
      entry_size := d.status_size
      entry_cursor := 0 }
  let es := newEntriesFor lid (shuffle (pyRange d.list_size d.status_size))
  ({ defn := { d with list_cursor := some newCursor }
     lists := st.lists ++ [newList]
     entries := st.entries ++ es }, newList)

/-- Lines 94-103: when the definition's list cursor is set, retrieve the
status list tagged with that sequence (a missing record propagates as a
storage error); a null cursor yields no current list. -/
def getCurrentList (st : Store) : Except PyError (Option SList) :=
  match st.defn.list_cursor with
  | none => .ok none
  | some c =>
    match retrieveByTags listTags st.lists
        [("definition_id", st.defn.id), ("sequence", toString c)] with
    | .ok l => .ok (some l)
    | .error e => .error e

/-- Lines 105-139: reuse the current list unless it is absent or its entry
cursor has reached its size, in which case create a new one. -/
def workingPair (shuffle : List Nat → List Nat) (st : Store)
    (sl? : Option SList) : Store × SList :=
  match sl? with
  | some l =>
    if l.entry_cursor ≥ l.list_size then createNewList shuffle st
    else (st, l)
  | none => createNewList shuffle st

/-- Lines 141-163: retrieve the entry of the working list whose sequence
tag equals `str(entry_cursor)`, mark it assigned, advance the cursor by
the entry size, and return (status_list_id, entry.index, entry.status). -/
def assignStep (st1 : Store) (working : SList) :
    Except PyError (Store × String × String × Nat) :=
  match retrieveByTags entryTags st1.entries
      [("status_list_id", working.id),
       ("sequence", toString working.entry_cursor)] with
  | .error e => .error e
  | .ok e =>
    .ok ({ st1 with
            entries := st1.entries.map fun x =>
              if x.id == e.id then { e with is_assigned := true } else x
            lists := st1.lists.map fun x =>
              if x.id == working.id
              then { working with
                      entry_cursor := working.entry_cursor + working.entry_size }
              else x },
         (working.id, Entry.index e, e.status))

/-- The allocator `create_status_list_entry` (status_list_entry.py lines
80-169), one atomic transaction. -/
def create_status_list_entry (shuffle : List Nat → List Nat) (st : Store) :
    Except PyError (Store × String × String × Nat) :=
  match getCurrentList st with
  | .error e => .error e
  | .ok sl? =>
    match workingPair shuffle st sl? with
    | (st1, working) => assignStep st1 working

/-- Run `n` successive `create_status_list_entry` calls, collecting the
returned (status_list_id, entry_index, entry_status) triples. -/
def allocRun (shuffle : List Nat → List Nat) :
    Nat → Store → Except PyError (Store × List (String × String × Nat))
  | 0, st => .ok (st, [])
  | n + 1, st =>
    match create_status_list_entry shuffle st with
    | .error e => .error e
    | .ok (st1, r) =>
      match allocRun shuffle n st1 with
      | .error e => .error e
      | .ok (st2, rs) => .ok (st2, r :: rs)

/-- The store after a successful run, if any. -/
def storeOf? (r : Except PyError (Store × List (String × String × Nat))) :
    Option Store :=
  match r with
  | .ok (st, _) => some st
  | .error _ => none

/-- The returned entry indices of a successful run, if any. -/
def indicesOf? (r : Except PyError (Store × List (String × String × Nat))) :
    Option (List String) :=
  match r with
  | .ok (_, rs) => some (rs.map fun t => t.2.1)
  | .error _ => none

/-- Look up an entry record by id. -/
def findEntry? (st : Store) (eid : String) : Option Entry :=
  st.entries.find? (fun e => e.id == eid)

/-- Look up a status list record by id. -/
def findList? (st : Store) (lid : String) : Option SList :=
  st.lists.find? (fun l => l.id == lid)

/-- A fresh definition with no status list yet (list cursor null). -/
def freshStore (C W : Nat) : Store :=
  { defn := { id := "def0", status_size := W, list_size := C, list_cursor := none }
    lists := []
    entries := [] }

/-- `recycle_status_list_entry` (status_list_entry.py lines 327-350):
retrieve the entry by the tag filter {"status_list_id": ..., "index": ...}
and reset its status and assignment flag.  The filter key "index" is not
among `StatusListEntry.TAG_NAMES`. -/
def recycle_status_list_entry (st : Store) (status_list_id idx : String) :
    Except PyError Store :=
  match retrieveByTags entryTags st.entries
      [("status_list_id", status_list_id), ("index", idx)] with
  | .error e => .error e
  | .ok e =>
    .ok { st with entries := st.entries.map fun x =>
            if x.id == e.id
            then { e with status := 0, is_assigned := false } else x }

/-- Stable insertion of `a` into `l`: `a` goes before the first element it
compares less-or-equal to. -/
def insertLe {α : Type} (le : α → α → Bool) (a : α) : List α → List α
  | [] => [a]
  | b :: l => if le a b then a :: b :: l else b :: insertLe le a l

/-- Python's `sorted` with a key function is a stable sort; any stable sort
for a total preorder produces the same output, so it is modelled by stable
insertion sort. -/
def pySorted {α : Type} (le : α → α → Bool) : List α → List α
  | [] => []
  | x :: xs => insertLe le x (pySorted le xs)

/-- Python string `<`: lexicographic comparison of code points. -/
def charListLt : List Char → List Char → Bool
  | [], [] => false
  | [], _ :: _ => true
  | _ :: _, [] => false
  | a :: as, b :: bs =>
    if a.toNat < b.toNat then true
    else if b.toNat < a.toNat then false
    else charListLt as bs

/-- Python string `<=` on strings, as the sort's total preorder. -/
def pyStrLe (a b : String) : Bool := !(charListLt b.data a.data)

/-- The comparison used by `sorted(entries, key=lambda entry: entry.index)`
(status_list_publisher.py line 101): `entry.index` is a string, so this is
lexicographic string comparison. -/
def entryIndexLe (a b : Entry) : Bool :=
  pyStrLe (Entry.index a) (Entry.index b)

/-- The publisher's sorted entry list (line 101). -/
def publishSorted (es : List Entry) : List Entry :=
  pySorted entryIndexLe es

/-- The bit sequence built by `publish_status_list` (lines 102-104): one
bit appended per entry, `bits.append(entry.status)`, in sorted order.
Entry statuses are single-bit values on the runs considered here, so the
appended bit is `status != 0`. -/
def publishBits (es : List Entry) : List Bool :=
  (publishSorted es).map fun e => e.status != 0

/-- The `w`-bit big-endian field of `n`: most significant bit first. -/
def natBitsMSB (w n : Nat) : List Bool :=
  (List.range w).map fun i => n.testBit (w - 1 - i)

/-- Decimal value of a digit string (the numeric reading of an entry's
index suffix). -/
def decValue (cs : List Char) : Nat :=
  cs.foldl (fun n c => n * 10 + (c.toNat - Char.toNat '0')) 0

/-- The bit index of an entry read as a number. -/
def entryNumIndex (e : Entry) : Nat :=
  decValue (Entry.index e).data

/-- The encoding described by the claim (spec section 4.3): slots in
numeric bit_index order, each status value a fixed-width `w`-bit field,
most significant bit first. -/
def claimedPublishBits (w : Nat) (es : List Entry) : List Bool :=
  ((pySorted (fun a b => decide (entryNumIndex a ≤ entryNumIndex b)) es).map
    fun e => natBitsMSB w e.status).flatten

/-- The projection of an entry that the publisher's encode step reads: its
record id (whose suffix is the sort key) and its status value. -/
def projIdStatus (e : Entry) : String × Nat := (e.id, e.status)

/-- `entryIndexLe` transported along `projIdStatus`. -/
def pairIndexLe (p q : String × Nat) : Bool :=
  pyStrLe (idSuffix p.1) (idSuffix q.1)

/-- Compression and base64 step of `publish_status_list` (lines 106-107),
with the external `gzip.compress` and `bytes_to_b64` collaborators as
function parameters: returns the compressed bytes and their base64 text. -/
def encodeStatusList (compress : List Bool → List Nat)
    (b64 : List Nat → String) (es : List Entry) : List Nat × String :=
  let lst := compress (publishBits es)
  (lst, b64 lst)

/-- Envelope-format dispatch of `publish_status_list` (lines 122-168):
"ietf" and "w3c" each bind `headers`; any other format falls through both
branches, leaving `headers` unbound, so the `jwt_sign(..., headers, ...)`
call raises `UnboundLocalError`. -/
def publishEnvelopeHeaders (publish_format : String) :
    Except PyError (List (String × String)) :=
  if publish_format = "ietf" then .ok [("typ", "statuslist+jwt")]
  else if publish_format = "w3c" then .ok []
  else .error .unboundLocal

/-- Request body of `create_status_list_def`: `body.get(..., None)` yields
an optional value for every field. -/
structure CreateDefBody where
  status_purpose : Option String
  status_size : Option Int
  status_message : Option (List (String × String))
  list_size : Option Nat
  deriving DecidableEq

/-- The persisted `StatusListDefinition` record as built by the handler. -/
structure DefnRecord where
  status_purpose : String
  status_size : Int
  status_message : Option (List (String × String))
  list_size : Option Nat
  list_cursor : Option Nat
  deriving DecidableEq

/-- `create_status_list_def` (status_list_definition.py lines 84-127):
purpose and size are required; a message map is required when size exceeds
one and discarded otherwise; purpose "message" without a message map is
rejected; the record is built with `list_size = body.get("list_size",
None)` passed straight to the constructor, so the Python-side default of
131072 is bypassed whenever the field is absent from the request. -/
def create_status_list_def (b : CreateDefBody) : Except PyError DefnRecord :=
  match b.status_purpose with
  | none => .error .valueError
  | some purpose =>
    match b.status_size with
    | none => .error .valueError
    | some sz =>
      match (if sz > 1 then
               match b.status_message with
               | none => Except.error PyError.valueError
               | some m => Except.ok (some m)
             else Except.ok none) with
      | .error e => .error e
      | .ok status_message =>
        if purpose = "message" ∧ status_message = none then
          .error .valueError
        else
          .ok { status_purpose := purpose
                status_size := sz
                status_message := status_message
                list_size := b.list_size
                list_cursor := none }

/-- Concrete fixtures used by counterexamples and witnesses. -/
def exList16 : List Entry :=
  (pyRange 16 1).map fun i =>
    { id := "sl0-" ++ toString i
      status_list_id := "sl0"
      sequence := toString i
      status := if i == 2 then 1 else 0
      is_assigned := true }

/-- A two-entry status list of entry width 2 (list_size 4 bits). -/
def exListW2 : List Entry :=
  [⟨"sl0-0", "sl0", "0", 1, true⟩, ⟨"sl0-2", "sl0", "1", 0, true⟩]

/-- Witness store for C4: a one-definition store with an active list of
size 2 and width 1 whose first allocation has already happened. -/
def wStore : Store :=
  { defn := ⟨"d", 1, 2, some 0⟩
    lists := [⟨"sl0", "d", "0", 2, 1, 1⟩]
    entries := [⟨"sl0-1", "sl0", "0", 0, true⟩, ⟨"sl0-0", "sl0", "1", 0, false⟩] }

/-- The active list of `wStore`. -/
def wList : SList := ⟨"sl0", "d", "0", 2, 1, 1⟩

/-- The store after one further allocation on `wStore`. -/
def wStoreNext : Store :=
  { defn := ⟨"d", 1, 2, some 0⟩
    lists := [⟨"sl0", "d", "0", 2, 1, 2⟩]
    entries := [⟨"sl0-1", "sl0", "0", 0, true⟩, ⟨"sl0-0", "sl0", "1", 0, true⟩] }

/-- The result triple of that allocation. -/
def wRes : String × String × Nat := ("sl0", "0", 0)

/-- Witness fixtures for C6: two entry lists equal in ids and statuses but
different in sequences and assignment flags. -/
def c6ListA : List Entry :=
  [⟨"a-1", "a", "0", 1, true⟩, ⟨"a-0", "a", "1", 0, false⟩]

/-- Same ids and statuses as `c6ListA`, different bookkeeping fields. -/
def c6ListB : List Entry :=
  [⟨"a-1", "a", "77", 1, false⟩, ⟨"a-0", "a", "9", 0, true⟩]

/-- A concrete compressor stand-in for the C6 witness. -/
def c6Compress (bs : List Bool) : List Nat :=
  [bs.length, bs.countP id]

/-- A concrete base64 stand-in for the C6 witness. -/
def c6B64 (bytes : List Nat) : String :=
  String.intercalate "." (bytes.map toString)

/-- Request body for the C10 witness: single-bit status size with a
message map supplied. -/
def c10Body : CreateDefBody :=
  ⟨some ("revocation"), some 1, some [("0x00", "active")], some 8⟩

/-- The record persisted for `c10Body`. -/
def c10Rec : DefnRecord :=
  ⟨"revocation", 1, none, some 8, none⟩

/-- Store fixture for C9: one assigned entry with status 1 at bit index 0
of list "sl0". -/
def c9Store : Store :=
  { defn := ⟨"d", 1, 2, some 0⟩
    lists := [⟨"sl0", "d", "0", 2, 1, 2⟩]
    entries := [⟨"sl0-0", "sl0", "1", 1, true⟩, ⟨"sl0-1", "sl0", "0", 0, true⟩] }

theorem pyRange_length (C W : Nat) (hW : 0 < W) (hdvd : W ∣ C) :
    (pyRange C W).length = C / W := by
  obtain ⟨q, rfl⟩ := hdvd
  simp only [pyRange, List.length_map, List.length_range]
  rw [Nat.mul_div_cancel_left q hW]
  have h1 : W * q + W - 1 = (W - 1) + W * q := by omega
  rw [h1, Nat.add_mul_div_left _ _ hW, Nat.div_eq_of_lt (by omega)]
  omega

theorem retrieveByTags_mem {α : Type} (tags : α → List (String × String))
    (records : List α) (f : List (String × String)) (r : α)
    (h : retrieveByTags tags records f = .ok r) : r ∈ records := by
  unfold retrieveByTags at h
  split at h
  · rename_i r0 heq
    injection h with h2
    subst h2
    exact List.mem_of_mem_filter
      (by rw [heq]; exact List.mem_singleton_self r0)
  · cases h
  · cases h

theorem insertLe_map_proj (a : Entry) (l : List Entry) :
    (insertLe entryIndexLe a l).map projIdStatus
      = insertLe pairIndexLe (projIdStatus a) (l.map projIdStatus) := by
  induction l with
  | nil => rfl
  | cons b l ih =>
    have hc : entryIndexLe a b = pairIndexLe (projIdStatus a) (projIdStatus b) := rfl
    rcases hb : pairIndexLe (projIdStatus a) (projIdStatus b) with _ | _
    · simp [insertLe, hc, hb, ih]
    · simp [insertLe, hc, hb]

theorem pySorted_map_proj (l : List Entry) :
    (pySorted entryIndexLe l).map projIdStatus
      = pySorted pairIndexLe (l.map projIdStatus) := by
  induction l with
  | nil => rfl
  | cons x xs ih => simp only [pySorted, List.map_cons, ← ih, insertLe_map_proj]

theorem publishBits_eq_of_proj (es es2 : List Entry)
    (h : es.map projIdStatus = es2.map projIdStatus) :
    publishBits es = publishBits es2 := by
  have h1 : (publishSorted es).map projIdStatus
      = (publishSorted es2).map projIdStatus := by
    simp only [publishSorted, pySorted_map_proj, h]
  have h2 : ∀ l : List Entry,
      l.map (fun e => e.status != 0)
        = (l.map projIdStatus).map (fun p => p.2 != 0) := by
    intro l
    rw [List.map_map]
    rfl
  unfold publishBits
  rw [h2, h2, h1]

/-- C1: the claim states that the slot handed out satisfies
`sequence = entry_cursor / entry_size`.  The code filters by
`sequence = str(entry_cursor)` instead (status_list_entry.py line 144).
On a fresh definition with list_size 8 and status_size 2 (identity
shuffle), the second allocation runs from the state with entry_cursor 2
and entry_size 2, yet assigns the entry with sequence "2" (bit index 4)
while the entry with sequence "1" = str(2 / 2) (bit index 2) stays
unassigned. -/
theorem c1_entry_lookup_uses_undivided_cursor :
    ((storeOf? (allocRun id 1 (freshStore 8 2))).map fun st =>
        (findList? st ("sl0")).map fun l => (l.entry_cursor, l.entry_size))
      = some (some (2, 2))
    ∧ ((storeOf? (allocRun id 2 (freshStore 8 2))).map fun st =>
        ((findEntry? st ("sl0-4")).map fun e => (e.sequence, e.is_assigned),
         (findEntry? st ("sl0-2")).map fun e => (e.sequence, e.is_assigned)))
      = some (some ("2", true), some ("1", false))
    ∧ toString (2 / 2) = "1" := by decide

/-- C2: the claim promises N pairwise-distinct bit indices for any
N ≤ C / W sequential allocations.  With C = 8, W = 2 and N = 3 ≤ 4, the
third call fails with StorageNotFoundError: it looks up sequence
"4" = str(entry_cursor) among the ranks 0..3, because the cursor is not
divided by the bit width. -/
theorem c2_sequential_allocation_fails_before_n_distinct :
    allocRun id 3 (freshStore 8 2) = .error .storageNotFound
    ∧ 3 ≤ 8 / 2 := by decide

/-- C3: the claim states that C / W allocations fill a list
(entry_cursor = C) and the next call rolls over.  With C = 4 and W = 2,
the second of the C / W = 2 calls already fails with
StorageNotFoundError (sequence "2" does not exist among ranks {0, 1}),
and the cursor is left at 2, not C = 4; rollover is never reached. -/
theorem c3_rollover_unreachable_for_wide_status :
    allocRun id 2 (freshStore 4 2) = .error .storageNotFound
    ∧ ((storeOf? (allocRun id 1 (freshStore 4 2))).map fun st =>
        (findList? st ("sl0")).map fun l => l.entry_cursor)
      = some (some 2)
    ∧ (2 : Nat) ≠ 4 := by decide

/-- C4: for a freshly created status list of capacity C and bit width W
(W dividing C), the slot-creation loop applied to any permutation of the
valid bit indices assigns sequences 0..C/W−1 in order (each exactly once)
and ids whose bit-index suffixes are exactly the multiples of W below C
(each exactly once); and a later allocation that reuses the current list
leaves every entry's id and sequence unchanged (it only flips
`is_assigned`), so the permutation is never regenerated. -/
theorem c4_allocation_rank_is_permutation
    (C W : Nat) (lid : String) (s : Nat) (perm : List Nat)
    (hW : 0 < W) (hdvd : W ∣ C) (hperm : perm.Perm (pyRange C W))
    (shuffle : List Nat → List Nat) (st : Store) (l : SList)
    (hids : (st.entries.map Entry.id).Nodup)
    (hcur : getCurrentList st = .ok (some l))
    (hlt : l.entry_cursor < l.list_size) :
    ((newEntriesWith lid s perm).map Entry.sequence
        = (List.range (C / W)).map toString)
    ∧ ((newEntriesWith lid s perm).map Entry.id).Perm
        ((pyRange C W).map fun i => lid ++ "-" ++ toString i)
    ∧ ∀ st1 r, create_status_list_entry shuffle st = .ok (st1, r) →
        st1.entries.map (fun e => (e.id, e.sequence))
          = st.entries.map (fun e => (e.id, e.sequence)) := by
  refine ⟨?_, ?_, ?_⟩
  · have h1 : (newEntriesWith lid s perm).map Entry.sequence
        = (perm.enum.map Prod.fst).map toString := by
      unfold newEntriesWith
      rw [List.map_map, List.map_map]
      rfl
    rw [h1, List.enum_map_fst, hperm.length_eq, pyRange_length C W hW hdvd]
  · have h2 : (newEntriesWith lid s perm).map Entry.id
        = perm.map (fun i => lid ++ "-" ++ toString i) := by
      unfold newEntriesWith
      rw [List.map_map]
      calc perm.enum.map (Entry.id ∘ fun p =>
              Entry.mk (lid ++ "-" ++ toString p.2) lid (toString p.1) s false)
            = (perm.enum.map Prod.snd).map (fun i => lid ++ "-" ++ toString i) := by
              rw [List.map_map]
              rfl
        _ = perm.map (fun i => lid ++ "-" ++ toString i) := by
              rw [List.enum_map_snd]
    rw [h2]
    exact hperm.map _
  · intro st1 r h
    have hwp : workingPair shuffle st (some l) = (st, l) := by
      show (if l.entry_cursor ≥ l.list_size then createNewList shuffle st
            else (st, l)) = (st, l)
      rw [if_neg (by omega : ¬ l.entry_cursor ≥ l.list_size)]
    have hdef : create_status_list_entry shuffle st = assignStep st l := by
      unfold create_status_list_entry
      simp only [hcur, hwp]
    rw [hdef] at h
    unfold assignStep at h
    cases hr : retrieveByTags entryTags st.entries
        [("status_list_id", l.id), ("sequence", toString l.entry_cursor)] with
    | error e =>
      rw [hr] at h
      cases h
    | ok e =>
      rw [hr] at h
      have he : e ∈ st.entries := retrieveByTags_mem _ _ _ _ hr
      injection h with h2
      injection h2 with h3 h4
      rw [← h3]
      rw [List.map_map]
      apply List.map_congr_left
      intro x hx
      by_cases hxe : x.id = e.id
      · have hxeq : x = e := List.inj_on_of_nodup_map hids hx he hxe
        subst hxeq
        simp [Function.comp]
      · simp [Function.comp, hxe]

/-- Closed instance of C4 at C = 4, W = 2, the permutation [2, 0], and the
one-allocation-old store `wStore`. -/
theorem c4_allocation_rank_is_permutation_witness :
    ((newEntriesWith ("sl9") 0 [2, 0]).map Entry.sequence
        = (List.range (4 / 2)).map toString)
    ∧ ((newEntriesWith ("sl9") 0 [2, 0]).map Entry.id).Perm
        ((pyRange 4 2).map fun i => "sl9" ++ "-" ++ toString i)
    ∧ wStoreNext.entries.map (fun e => (e.id, e.sequence))
        = wStore.entries.map (fun e => (e.id, e.sequence)) := by
  obtain ⟨h1, h2, h3⟩ := c4_allocation_rank_is_permutation 4 2 ("sl9") 0
    [2, 0] (by decide) (by decide) (by decide) id wStore wList
    (by decide) (by decide) (by decide)
  exact ⟨h1, h2, h3 wStoreNext wRes (by decide)⟩

/-- C5: the claim states that publication orders slots by bit_index
numerically and emits each status as a fixed-width entry_size-bit field,
for list_size bits in total.  The code sorts by the string property
`entry.index` (lexicographic, so "10" < "2") and appends one bit per
entry: on a 16-slot width-1 list whose only set status is at bit index 2,
the set bit lands at position 8 instead of position 2; and a width-2 list
of 4 bits yields only 2 bits. -/
theorem c5_publish_order_lexicographic_single_bit :
    publishBits exList16 ≠ claimedPublishBits 1 exList16
    ∧ (publishBits exList16)[8]? = some true
    ∧ (claimedPublishBits 1 exList16)[2]? = some true
    ∧ (publishBits exListW2).length = 2
    ∧ (claimedPublishBits 2 exListW2).length = 4 := by decide

/-- C6: the compressed and base64 output of the encode step is a function
of the entries' record ids and status values alone — two stores that agree
on those (same slots, same statuses, same ordering) produce byte-identical
output, whatever deterministic compressor and base64 encoder are used; in
particular re-encoding an unmodified status list reproduces the output. -/
theorem c6_encode_deterministic (compress : List Bool → List Nat)
    (b64 : List Nat → String) (es es2 : List Entry)
    (h : es.map projIdStatus = es2.map projIdStatus) :
    encodeStatusList compress b64 es = encodeStatusList compress b64 es2 := by
  unfold encodeStatusList
  rw [publishBits_eq_of_proj es es2 h]

/-- Closed instance of C6: two entry lists equal in ids and statuses but
different in bookkeeping fields encode identically. -/
theorem c6_encode_deterministic_witness :
    encodeStatusList c6Compress c6B64 c6ListA
      = encodeStatusList c6Compress c6B64 c6ListB :=
  c6_encode_deterministic c6Compress c6B64 c6ListA c6ListB (by decide)

/-- C7: the claim states that an unknown publish_format fails with a
ValidationError.  The code has no else branch, so `headers` is never
bound and the `jwt_sign` call raises UnboundLocalError — an unrelated
error, not a validation error. -/
theorem c7_unknown_format_unbound_headers :
    publishEnvelopeHeaders ("jose") = .error .unboundLocal
    ∧ PyError.unboundLocal ≠ PyError.validationError := by decide

/-- C8: the claim states that omitting list_size persists the default
131072.  The handler passes `body.get("list_size", None)` straight to the
constructor, bypassing the Python default, so the persisted record has
list_size None. -/
theorem c8_omitted_list_size_persists_none :
    create_status_list_def ⟨some ("revocation"), some 1, none, none⟩
      = .ok ⟨"revocation", 1, none, none, none⟩
    ∧ (none : Option Nat) ≠ some 131072 := by decide

/-- C9: the claim states that recycle resets an existing slot.  The slot
addressed by (status_list_id "sl0", bit index 0) exists in `c9Store`, yet
the handler's tag filter uses the key "index", which is not among
`StatusListEntry`'s tags, so the lookup matches nothing and the handler
fails with StorageNotFoundError without resetting anything. -/
theorem c9_recycle_lookup_never_matches :
    (c9Store.entries.any fun e =>
        e.status_list_id == "sl0" && Entry.index e == "0") = true
    ∧ recycle_status_list_entry c9Store ("sl0") ("0")
      = .error .storageNotFound := by decide

/-- C10: whenever a create request with status_size ≤ 1 persists a
definition, the persisted status_message is None, regardless of any
message map supplied in the request body. -/
theorem c10_small_status_size_discards_message
    (b : CreateDefBody) (z : Int) (r : DefnRecord)
    (hz : b.status_size = some z) (hle : z ≤ 1)
    (h : create_status_list_def b = .ok r) :
    r.status_message = none := by
  unfold create_status_list_def at h
  cases hp : b.status_purpose with
  | none =>
    rw [hp] at h
    cases h
  | some purpose =>
    rw [hp, hz] at h
    simp only [] at h
    rw [if_neg (by omega : ¬ z > 1)] at h
    simp only [] at h
    split at h
    · cases h
    · cases h
      rfl

/-- Closed instance of C10: status_size 1 with a message map supplied
persists status_message None. -/
theorem c10_small_status_size_discards_message_witness :
    c10Rec.status_message = none :=
  c10_small_status_size_discards_message c10Body 1 c10Rec rfl
    (by decide) (by decide)

end StatusListPlugin
